import Mathlib

/-
Verification of the document-type detection engine
(src/detection: config.py, models.py, document_service.py, file_detector.py).

Shallow embedding notes:
- Python floats used for confidence values and sizes are modelled as rationals.
  Every constant appearing in the code (0.0, 0.2, 0.3, 0.6, 0.7, 0.8, 0.9, 1.0,
  size thresholds) is a dyadic-or-decimal value whose float comparisons in the
  source coincide with exact rational comparisons, so the model is faithful.
- The try/except control flow of the source is modelled with Except and total
  functions: the content sniffer is an explicit input (SniffOutcome), covering
  the magic / filetype / mimetypes capability choice and the exception case.
- Field and definition names follow the source; recommendedParser stands for
  the recommended_parser field of ProcessingInfo.
-/

/-- Python str.lower, modelled per character (identical to the source on the
ASCII extension strings involved). -/
def str_lower (s : String) : String := String.mk (s.data.map Char.toLower)

/-- ComplexityLevel values are the strings low / medium / high (models.py). -/
def complexityValues : List String := ["low", "medium", "high"]

/-- DocumentType (models.py): descriptor of a supported type. -/
structure DocumentType where
  extension : String
  mime_type : String
  description : String
  parser_module : String
  complexity : String
deriving Repr, DecidableEq

/-- SUPPORTED_EXTENSIONS (config.py): the static catalog, as an association
list extension to DocumentType, in source order. -/
def SUPPORTED_EXTENSIONS : List (String × DocumentType) :=
  [ (".docx",
      { extension := ".docx"
        mime_type := "application/vnd.openxmlformats-officedocument.wordprocessingml.document"
        description := "Microsoft Word Document"
        parser_module := "python-docx"
        complexity := "medium" }),
    (".pdf",
      { extension := ".pdf"
        mime_type := "application/pdf"
        description := "PDF Document"
        parser_module := "pdfplumber"
        complexity := "high" }),
    (".txt",
      { extension := ".txt"
        mime_type := "text/plain"
        description := "Plain Text File"
        parser_module := "built-in"
        complexity := "low" }),
    (".odt",
      { extension := ".odt"
        mime_type := "application/vnd.oasis.opendocument.text"
        description := "OpenDocument Text"
        parser_module := "odfpy"
        complexity := "medium" }) ]

/-- DocumentService.get_document_type: lookup of extension.lower() in the
supported-types mapping. -/
def get_document_type (ext : String) : Option DocumentType :=
  (SUPPORTED_EXTENSIONS.find? (fun p => p.1 == str_lower ext)).map (fun p => p.2)

/-- DocumentService.is_supported: membership of extension.lower() in the
supported-types mapping. -/
def is_supported (ext : String) : Bool :=
  (SUPPORTED_EXTENSIONS.find? (fun p => p.1 == str_lower ext)).isSome

/-- DocumentService.get_extension_from_mime: reverse lookup in the
mime-to-extension mapping built by config.get_mime_to_extension_mapping.
The Python dict get returns None when the key is None or absent. -/
def get_extension_from_mime (mime : Option String) : Option String :=
  match mime with
  | none => none
  | some m => (SUPPORTED_EXTENSIONS.find? (fun p => p.2.mime_type == m)).map (fun p => p.1)

/-- DetectionResult (models.py). -/
structure DetectionResult where
  method : String
  detected_type : String
  mime_type : String
  description : String
  confidence : ℚ
  is_supported : Bool
  resolution : Option String := none
  extension_match : Option Bool := none
deriving Repr, DecidableEq

/-- FileInfo (models.py). -/
structure FileInfo where
  path : String
  name : String
  stem : String
  extension : String
  size_bytes : ℕ
  size_mb : ℚ
  size_category : String
deriving Repr, DecidableEq

/-- ProcessingInfo (models.py); recommendedParser models the
recommended parser-module field. -/
structure ProcessingInfo where
  can_process : Bool
  recommendedParser : Option String := none
  complexity : Option String := none
  estimated_time : Option String := none
  memory_requirement : Option String := none
  reason : Option String := none
deriving Repr, DecidableEq

/-- DocumentDetectionResult (models.py): the top-level outcome. -/
structure DocumentDetectionResult where
  file_info : Option FileInfo := none
  detection : Option DetectionResult := none
  processing : Option ProcessingInfo := none
  status : String
  error : Option String := none
deriving Repr, DecidableEq

/-- Outcome of the content-sniffing step feeding _detect_by_mime: which
capability was available (magic at 0.9, filetype at 0.8, mimetypes at 0.6),
what media identifier it yielded, or the exception it raised. -/
inductive SniffOutcome where
  | magicOk (mime : String)
  | filetypeOk (mime : Option String)
  | mimetypesOk (mime : Option String)
  | sniffError (msg : String)
deriving Repr, DecidableEq

/-- The media identifier produced by the sniffing strategy (magic always
returns a string; filetype and mimetypes may return none). -/
def sniffMime (s : SniffOutcome) : Option String :=
  match s with
  | .magicOk m => some m
  | .filetypeOk m => m
  | .mimetypesOk m => m
  | .sniffError _ => none

/-- The per-strategy confidence constants of _detect_by_mime. -/
def sniffConfidence (s : SniffOutcome) : ℚ :=
  match s with
  | .magicOk _ => 0.9
  | .filetypeOk _ => 0.8
  | _ => 0.6

/-- Python mime_type or unknown: falsy (None or empty) becomes unknown. -/
def pyOrUnknown (m : Option String) : String :=
  match m with
  | some s => if s = "" then "unknown" else s
  | none => "unknown"

/-- The classification produced when the body of _detect_by_mime raises and
the local except clause runs. -/
def mimeErrorResult (msg : String) : DetectionResult :=
  { method := "mime_content"
    detected_type := "unknown"
    mime_type := "error"
    description := "Erreur détection MIME: " ++ msg
    confidence := 0.0
    is_supported := false }

/-- DocumentTypeDetector._detect_by_extension, as a function of the
path suffix (path_obj.suffix.lower() is taken inside, as in the source). -/
def detect_by_extension (suffix : String) : DetectionResult :=
  let extension := str_lower suffix
  match get_document_type extension with
  | some doc_type =>
    { method := "extension"
      detected_type := extension
      mime_type := doc_type.mime_type
      description := doc_type.description
      confidence := 0.7
      is_supported := true }
  | none =>
    { method := "extension"
      detected_type := extension
      mime_type := "unknown"
      description := "Type non supporté"
      confidence := 0.3
      is_supported := false }

/-- DocumentTypeDetector._detect_by_mime, as a function of the sniffing
outcome. The inner none branch of get_document_type is unreachable for the
default catalog (the reverse mapping only yields catalog keys); were it
reached, the source would raise AttributeError inside its try and return the
local error classification, which is what the branch produces here. -/
def detect_by_mime (s : SniffOutcome) : DetectionResult :=
  match s with
  | .sniffError msg => mimeErrorResult msg
  | _ =>
    let mime_type := sniffMime s
    let confidence := sniffConfidence s
    match get_extension_from_mime mime_type with
    | some detected_ext =>
      match get_document_type detected_ext with
      | some doc_type =>
        { method := "mime_content"
          detected_type := detected_ext
          mime_type := pyOrUnknown mime_type
          description := doc_type.description
          confidence := confidence
          is_supported := true }
      | none => mimeErrorResult "NoneType has no attribute description"
    | none =>
      { method := "mime_content"
        detected_type := "unknown"
        mime_type := pyOrUnknown mime_type
        description := "Type non reconnu par type"
        confidence := 0.2
        is_supported := false }

/-- DocumentTypeDetector._resolve_detection_conflicts. -/
def resolve_detection_conflicts (ext_detection mime_detection : DetectionResult) :
    DetectionResult :=
  if mime_detection.confidence > 0.7 ∧ mime_detection.mime_type ≠ "error" then
    let ext_type := ext_detection.detected_type
    let mime_type := mime_detection.detected_type
    let confidence : ℚ :=
      if ext_type = mime_type then
        min 1.0 (ext_detection.confidence + mime_detection.confidence)
      else mime_detection.confidence
    let resolution : String := if ext_type = mime_type then "coherent" else "mime_priority"
    { mime_detection with
        confidence := confidence
        resolution := some resolution
        extension_match := some (ext_type == mime_type) }
  else
    { ext_detection with resolution := some "extension_fallback" }

/-- DocumentTypeDetector._categorize_file_size. -/
def categorize_file_size (size_bytes : ℕ) : String :=
  let size_mb : ℚ := (size_bytes : ℚ) / (1024 * 1024)
  if size_mb < 1 then "small"
  else if size_mb < 10 then "medium"
  else if size_mb < 50 then "large"
  else "very_large"

/-- DocumentTypeDetector._estimate_size_complexity. -/
def estimate_size_complexity (size_mb : ℚ) : String :=
  if size_mb < 5 then "low"
  else if size_mb < 20 then "medium"
  else "high"

/-- The order dict of _max_complexity, with default 0 for unknown keys. -/
def complexityOrder (c : String) : ℕ :=
  if c = "low" then 1 else if c = "medium" then 2 else if c = "high" then 3 else 0

/-- DocumentTypeDetector._max_complexity. -/
def max_complexity (complexity1 complexity2 : String) : String :=
  if complexityOrder complexity1 ≥ complexityOrder complexity2 then complexity1
  else complexity2

/-- DocumentTypeDetector._estimate_processing_time. Python int() truncates;
all quantities here are nonnegative, so floor coincides with it. -/
def estimate_processing_time (complexity : String) (size_mb : ℚ) : String :=
  let base_time : ℚ :=
    if complexity = "low" then 1 else if complexity = "medium" then 5
    else if complexity = "high" then 15 else 10
  let size_factor := max 1 (size_mb / 5)
  let estimated_seconds := base_time * size_factor
  if estimated_seconds < 60 then "~" ++ toString estimated_seconds.floor ++ "s"
  else "~" ++ toString (estimated_seconds / 60).floor ++ "min"

/-- DocumentTypeDetector._estimate_memory_usage. -/
def estimate_memory_usage (file_type : String) (size_mb : ℚ) : String :=
  let factor : ℚ :=
    if file_type = ".txt" then 2 else if file_type = ".docx" then 4
    else if file_type = ".pdf" then 6 else if file_type = ".odt" then 5 else 4
  let estimated_mb := size_mb * factor
  if estimated_mb < 100 then "low"
  else if estimated_mb < 500 then "medium"
  else "high"

/-- DocumentTypeDetector._generate_processing_info. The inner none branch is
unreachable: is_supported true forces get_document_type to succeed. -/
def generate_processing_info (detection : DetectionResult) (file_info : FileInfo) :
    ProcessingInfo :=
  let detected_type := detection.detected_type
  if detection.is_supported && is_supported detected_type then
    match get_document_type detected_type with
    | some doc_type =>
      let size_complexity := estimate_size_complexity file_info.size_mb
      let overall_complexity := max_complexity doc_type.complexity size_complexity
      { can_process := true
        recommendedParser := some doc_type.parser_module
        complexity := some overall_complexity
        estimated_time := some (estimate_processing_time overall_complexity file_info.size_mb)
        memory_requirement := some (estimate_memory_usage detected_type file_info.size_mb) }
    | none => { can_process := false, reason := some "Type de fichier non supporté" }
  else
    { can_process := false, reason := some "Type de fichier non supporté" }

/-- Python round(x, 2) on the megabyte figure (banker s rounding differences
at exact half-cents do not affect any verified property). -/
def round2 (q : ℚ) : ℚ := (round (q * 100) : ℤ) / 100

/-- Filesystem-level model of one detection call: the facts the source reads
from the path object and the filesystem. pathExists models Path.exists;
stat models Path.stat().st_size, which may raise after the existence check
(the file vanishing), modelled as the error case. -/
structure PathModel where
  raw : String
  resolved : String
  name : String
  stem : String
  suffix : String
  pathExists : Bool
  stat : Except String ℕ
  sniff : SniffOutcome

/-- DocumentTypeDetector._extract_file_info: fails exactly when stat fails. -/
def extract_file_info (p : PathModel) : Except String FileInfo :=
  match p.stat with
  | .error e => .error e
  | .ok size_bytes =>
    .ok { path := p.resolved
          name := p.name
          stem := p.stem
          extension := str_lower p.suffix
          size_bytes := size_bytes
          size_mb := round2 ((size_bytes : ℚ) / (1024 * 1024))
          size_category := categorize_file_size size_bytes }

/-- DocumentTypeDetector.detect_document_type: the orchestrator. The missing
path check precedes the try block; any fault inside the try (here: stat
failing) is converted into the status error outcome. -/
def detect_document_type (p : PathModel) : DocumentDetectionResult :=
  if ¬ p.pathExists then
    { status := "error", error := some ("Fichier non trouvé:" ++ p.raw) }
  else
    match extract_file_info p with
    | .error e => { status := "error", error := some ("Erreur lors de l\x27analyse: " ++ e) }
    | .ok file_info =>
      let extension_detection := detect_by_extension p.suffix
      let mime_detection := detect_by_mime p.sniff
      let final_detection := resolve_detection_conflicts extension_detection mime_detection
      let processing_info := generate_processing_info final_detection file_info
      { file_info := some file_info
        detection := some final_detection
        processing := some processing_info
        status := "success" }

/-- A classification actually producible by the Extension Classifier over the
default catalog. -/
def ExtProducible (r : DetectionResult) : Prop :=
  ∃ suffix, detect_by_extension suffix = r

/-- A classification actually producible by the Content Classifier over the
default catalog. -/
def MimeProducible (r : DetectionResult) : Prop :=
  ∃ s, detect_by_mime s = r

/-- Spec-side definition, following the words of the specification: combine
the catalog intrinsic complexity with the size-derived one by taking the
higher on the ordinal scale LOW below MEDIUM below HIGH, ties keeping the
catalog value. To be compared with max_complexity from the source. -/
def spec_complexity_rank (c : String) : ℕ :=
  if c = "low" then 0 else if c = "medium" then 1 else 2

/-- Spec-side ordinal maximum with ties resolved in favor of the intrinsic
(catalog) complexity. -/
def spec_ordinal_max (intrinsic size_derived : String) : String :=
  if spec_complexity_rank size_derived > spec_complexity_rank intrinsic then size_derived
  else intrinsic

/-- Helper: whenever the gate of the Resolver fails, the result is the
extension classification with resolution extension_fallback. -/
lemma resolve_fallback_of_gate (e m : DetectionResult)
    (h : ¬ (m.confidence > 0.7 ∧ m.mime_type ≠ "error")) :
    resolve_detection_conflicts e m = { e with resolution := some "extension_fallback" } := by
  unfold resolve_detection_conflicts
  rw [if_neg h]

/-- C1: if the content classification has confidence at most 0.7 or carries
the error sentinel, the Resolver returns the extension classification
verbatim, only with resolution set to extension_fallback, regardless of
whether the detected types agree. -/
theorem C1_low_confidence_extension_fallback (e m : DetectionResult)
    (h : m.confidence ≤ 0.7 ∨ m.mime_type = "error") :
    resolve_detection_conflicts e m = { e with resolution := some "extension_fallback" } := by
  apply resolve_fallback_of_gate
  rintro ⟨hc, hne⟩
  rcases h with h | h
  · exact absurd hc (not_lt.mpr h)
  · exact hne h

/-- C1 witness: a sniffing failure (confidence 0.0) falls back to the
extension classification of a txt file. -/
theorem C1_witness :
    resolve_detection_conflicts (detect_by_extension ".txt")
        (detect_by_mime (SniffOutcome.sniffError "io")) =
      { detect_by_extension ".txt" with resolution := some "extension_fallback" } :=
  C1_low_confidence_extension_fallback _ _ (Or.inr rfl)

/-- C3: with a trusted content signal (confidence above 0.7, no error
sentinel) and differing detected types, the Resolver returns the content
classification with the content-priority resolution tag (source string
mime_priority), extension_match false, and the content confidence unchanged. -/
theorem C3_content_priority (e m : DetectionResult)
    (h1 : m.confidence > 0.7) (h2 : m.mime_type ≠ "error")
    (h3 : e.detected_type ≠ m.detected_type) :
    resolve_detection_conflicts e m =
      { m with resolution := some "mime_priority", extension_match := some false } := by
  unfold resolve_detection_conflicts
  rw [if_pos ⟨h1, h2⟩]
  simp only [if_neg h3, beq_eq_false_iff_ne.mpr h3]

/-- C3 witness: a docx-named file whose bytes sniff as plain text. -/
theorem C3_witness :
    resolve_detection_conflicts (detect_by_extension ".docx")
        (detect_by_mime (SniffOutcome.magicOk "text/plain")) =
      { detect_by_mime (SniffOutcome.magicOk "text/plain") with
          resolution := some "mime_priority", extension_match := some false } := by
  have hm : detect_by_mime (SniffOutcome.magicOk "text/plain") =
      { method := "mime_content", detected_type := ".txt", mime_type := "text/plain",
        description := "Plain Text File", confidence := 0.9, is_supported := true } := rfl
  exact C3_content_priority _ _ (by rw [hm]; norm_num) (by decide) (by decide)

/-- C4: a path that does not exist yields the error outcome naming the path,
with no FileFacts, Classification or ProcessingEstimate, before any
classification step runs. -/
theorem C4_missing_path (p : PathModel) (h : p.pathExists = false) :
    detect_document_type p =
      { status := "error", error := some ("Fichier non trouvé:" ++ p.raw) } := by
  unfold detect_document_type
  rw [if_pos (by simp [h])]

/-- C4 witness: a concrete missing path. -/
theorem C4_witness :
    detect_document_type
        { raw := "/tmp/missing.txt", resolved := "/tmp/missing.txt", name := "missing.txt",
          stem := "missing", suffix := ".txt", pathExists := false,
          stat := Except.error "stat", sniff := SniffOutcome.sniffError "io" } =
      { status := "error", error := some ("Fichier non trouvé:" ++ "/tmp/missing.txt") } :=
  C4_missing_path _ rfl

/-- C5: detection always returns an outcome value: its status is success or
error, a success outcome carries FileFacts, Classification and
ProcessingEstimate together, and an error outcome carries a message. -/
theorem C5_total_outcome (p : PathModel) :
    ((detect_document_type p).status = "success" ∧
      (detect_document_type p).file_info.isSome ∧
      (detect_document_type p).detection.isSome ∧
      (detect_document_type p).processing.isSome) ∨
    ((detect_document_type p).status = "error" ∧
      (detect_document_type p).error.isSome) := by
  unfold detect_document_type
  split
  · right; simp
  · split
    · right; simp
    · left; simp

/-- C6: a sniffing fault is converted locally into the unknown/error/0.0
classification, and the overall detection still succeeds, resolving to the
extension fallback. -/
theorem C6_sniff_fault_recovered (p : PathModel) (msg : String) (n : ℕ)
    (h1 : p.pathExists = true) (h2 : p.stat = Except.ok n)
    (h3 : p.sniff = SniffOutcome.sniffError msg) :
    detect_by_mime p.sniff =
      { method := "mime_content", detected_type := "unknown", mime_type := "error",
        description := "Erreur détection MIME: " ++ msg, confidence := 0.0,
        is_supported := false } ∧
    (detect_document_type p).status = "success" ∧
    (detect_document_type p).detection =
      some { detect_by_extension p.suffix with resolution := some "extension_fallback" } := by
  refine ⟨by rw [h3]; rfl, ?_, ?_⟩
  · unfold detect_document_type
    rw [if_neg (by simp [h1])]
    unfold extract_file_info
    rw [h2]
  · unfold detect_document_type
    rw [if_neg (by simp [h1])]
    unfold extract_file_info
    rw [h2]
    simp only [h3]
    rw [resolve_fallback_of_gate _ _ (by norm_num [detect_by_mime, mimeErrorResult])]

/-- C6 witness: a concrete readable file whose sniffing raises. -/
theorem C6_witness :
    (detect_document_type
        { raw := "/tmp/a.txt", resolved := "/tmp/a.txt", name := "a.txt",
          stem := "a", suffix := ".txt", pathExists := true,
          stat := Except.ok 100, sniff := SniffOutcome.sniffError "boom" }).status =
      "success" :=
  (C6_sniff_fault_recovered _ "boom" 100 rfl rfl rfl).2.1

/-- C7: size bucketing is the step function with cut points at 1, 10 and
50 MB on the byte count, and the boundary values 1 MB and 50 MB map to
medium and very_large respectively. -/
theorem C7_size_buckets (size_bytes : ℕ) :
    categorize_file_size size_bytes =
      (if size_bytes < 1048576 then "small"
       else if size_bytes < 10485760 then "medium"
       else if size_bytes < 52428800 then "large"
       else "very_large") ∧
    categorize_file_size 1048576 = "medium" ∧
    categorize_file_size 52428800 = "very_large" := by
  refine ⟨?_, by norm_num [categorize_file_size], by norm_num [categorize_file_size]⟩
  unfold categorize_file_size
  have key : ∀ b : ℚ, 0 < b → (((size_bytes : ℚ) / (1024 * 1024) < b) ↔ ((size_bytes : ℚ) < b * 1048576)) := by
    intro b hb
    rw [div_lt_iff₀ (by norm_num)]
    norm_num
  have e1 : ((size_bytes : ℚ) / (1024 * 1024) < 1) ↔ (size_bytes < 1048576) := by
    rw [key 1 one_pos]
    norm_cast
  have e2 : ((size_bytes : ℚ) / (1024 * 1024) < 10) ↔ (size_bytes < 10485760) := by
    rw [key 10 (by norm_num)]
    norm_num
  have e3 : ((size_bytes : ℚ) / (1024 * 1024) < 50) ↔ (size_bytes < 52428800) := by
    rw [key 50 (by norm_num)]
    norm_num
  simp only [e1, e2, e3]

/-- Helper: a supported catalog lookup makes is_supported true. -/
lemma is_supported_of_get {ext : String} {dt : DocumentType}
    (h : get_document_type ext = some dt) : is_supported ext = true := by
  unfold get_document_type at h
  unfold is_supported
  cases hf : SUPPORTED_EXTENSIONS.find? (fun p => p.1 == str_lower ext) <;>
    rw [hf] at h <;> simp_all

/-- Helper: an extension classification whose detected type is in the
catalog was produced by the supported branch, hence has confidence 0.7. -/
lemma extProducible_conf (e : DetectionResult) (he : ExtProducible e)
    (hs : (get_document_type e.detected_type).isSome) : e.confidence = 0.7 := by
  obtain ⟨suffix, hsu⟩ := he
  simp only [detect_by_extension] at hsu
  split at hsu
  · subst hsu
    rfl
  · subst hsu
    rename_i hg
    simp only at hs
    rw [hg] at hs
    simp at hs

/-- Helper: a content classification with confidence above 0.7 comes from
the magic (0.9) or filetype (0.8) supported branch, so its detected type is
a catalog key. -/
lemma mimeProducible_high (m : DetectionResult) (hm : MimeProducible m)
    (hc : m.confidence > 0.7) :
    (m.confidence = 0.8 ∨ m.confidence = 0.9) ∧
      (get_document_type m.detected_type).isSome := by
  obtain ⟨s, hs⟩ := hm
  cases s with
  | sniffError msg =>
    subst hs
    norm_num [detect_by_mime, mimeErrorResult] at hc
  | magicOk mime0 =>
    simp only [detect_by_mime, sniffMime, sniffConfidence] at hs
    split at hs
    · split at hs
      · subst hs
        rename_i hdt
        refine ⟨Or.inr rfl, ?_⟩
        simp only
        rw [hdt]
        rfl
      · subst hs
        norm_num [mimeErrorResult] at hc
    · subst hs
      norm_num at hc
  | filetypeOk o =>
    simp only [detect_by_mime, sniffMime, sniffConfidence] at hs
    split at hs
    · split at hs
      · subst hs
        rename_i hdt
        refine ⟨Or.inl rfl, ?_⟩
        simp only
        rw [hdt]
        rfl
      · subst hs
        norm_num [mimeErrorResult] at hc
    · subst hs
      norm_num at hc
  | mimetypesOk o =>
    simp only [detect_by_mime, sniffMime, sniffConfidence] at hs
    split at hs
    · split at hs
      · subst hs
        norm_num at hc
      · subst hs
        norm_num [mimeErrorResult] at hc
    · subst hs
      norm_num at hc

/-- C2: for producible classifier outputs, a trusted content signal agreeing
with the extension yields the content classification with resolution
coherent, extension_match true, and confidence min(1.0, 0.7 + content
confidence), the extension confidence being necessarily 0.7. -/
theorem C2_coherent_boost (e m : DetectionResult)
    (he : ExtProducible e) (hm : MimeProducible m)
    (h1 : m.confidence > 0.7) (h2 : m.mime_type ≠ "error")
    (h3 : e.detected_type = m.detected_type) :
    resolve_detection_conflicts e m =
      { m with confidence := min 1.0 (0.7 + m.confidence),
               resolution := some "coherent", extension_match := some true } := by
  have hsup := (mimeProducible_high m hm h1).2
  have hec : e.confidence = 0.7 := extProducible_conf e he (by rw [h3]; exact hsup)
  unfold resolve_detection_conflicts
  rw [if_pos ⟨h1, h2⟩]
  simp only [h3, if_pos rfl, hec, beq_self_eq_true, if_true, ite_true]

/-- C2 witness: a pdf file whose content sniffs as application/pdf. -/
theorem C2_witness :
    resolve_detection_conflicts (detect_by_extension ".pdf")
        (detect_by_mime (SniffOutcome.magicOk "application/pdf")) =
      { detect_by_mime (SniffOutcome.magicOk "application/pdf") with
          confidence := min 1.0 (0.7 + (detect_by_mime (SniffOutcome.magicOk "application/pdf")).confidence),
          resolution := some "coherent", extension_match := some true } := by
  have hm : detect_by_mime (SniffOutcome.magicOk "application/pdf") =
      { method := "mime_content", detected_type := ".pdf", mime_type := "application/pdf",
        description := "PDF Document", confidence := 0.9, is_supported := true } := rfl
  exact C2_coherent_boost _ _ ⟨".pdf", rfl⟩ ⟨_, rfl⟩ (by rw [hm]; norm_num)
    (by decide) (by decide)

/-- C10: on producible classifier outputs, whenever the Resolver takes the
coherent branch the final confidence is exactly 1. -/
theorem C10_coherent_confidence_one (e m : DetectionResult)
    (he : ExtProducible e) (hm : MimeProducible m)
    (h : (resolve_detection_conflicts e m).resolution = some "coherent") :
    (resolve_detection_conflicts e m).confidence = 1 := by
  by_cases hg : m.confidence > 0.7 ∧ m.mime_type ≠ "error"
  · by_cases ht : e.detected_type = m.detected_type
    · obtain ⟨hconf, hsup⟩ := mimeProducible_high m hm hg.1
      have hec : e.confidence = 0.7 := extProducible_conf e he (by rw [ht]; exact hsup)
      unfold resolve_detection_conflicts
      rw [if_pos hg]
      simp only [ht, if_pos rfl, hec, if_true, ite_true]
      rcases hconf with h8 | h9
      · rw [h8]
        norm_num [min_def]
      · rw [h9]
        norm_num [min_def]
    · exfalso
      unfold resolve_detection_conflicts at h
      rw [if_pos hg] at h
      simp only [if_neg ht] at h
      exact absurd h (by simp)
  · exfalso
    rw [resolve_fallback_of_gate e m hg] at h
    simp at h

/-- Helper: the size-derived complexity is one of the three levels. -/
lemma size_complexity_mem (size_mb : ℚ) :
    estimate_size_complexity size_mb ∈ complexityValues := by
  unfold estimate_size_complexity
  split
  · simp [complexityValues]
  · split <;> simp [complexityValues]

/-- Helper: on the three complexity levels, the source maximum agrees with
the spec-side ordinal maximum keeping ties on the first argument. -/
lemma max_complexity_eq_spec (c1 c2 : String)
    (h1 : c1 ∈ complexityValues) (h2 : c2 ∈ complexityValues) :
    max_complexity c1 c2 = spec_ordinal_max c1 c2 := by
  fin_cases h1 <;> fin_cases h2 <;> rfl

/-- C8: an unsupported final classification (flag false, or detected type
absent from the catalog) yields can_process false with the unsupported-type
reason (source string Type de fichier non supporté) and no other fields; a
supported one yields can_process true with the parser module of the catalog
descriptor. -/
theorem C8_processing_support (d : DetectionResult) (f : FileInfo) :
    ((d.is_supported = false ∨ is_supported d.detected_type = false) →
      generate_processing_info d f =
        { can_process := false, reason := some "Type de fichier non supporté" }) ∧
    (∀ doc_type : DocumentType, d.is_supported = true →
      get_document_type d.detected_type = some doc_type →
      (generate_processing_info d f).can_process = true ∧
      (generate_processing_info d f).recommendedParser = some doc_type.parser_module) := by
  constructor
  · intro h
    simp only [generate_processing_info]
    have hcond : (d.is_supported && is_supported d.detected_type) = false := by
      rcases h with h | h <;> simp [h]
    rw [hcond]
    simp
  · intro doc_type h1 h2
    have hsup : is_supported d.detected_type = true := is_supported_of_get h2
    simp only [generate_processing_info]
    rw [h1, hsup]
    simp only [Bool.and_self, if_true, ite_true]
    rw [h2]
    exact ⟨rfl, rfl⟩

/-- C8 witness: an unknown xyz extension is refused; a supported txt type is
accepted with its catalog parser. -/
theorem C8_witness :
    (generate_processing_info
        { method := "extension", detected_type := ".xyz", mime_type := "unknown",
          description := "Type non supporté", confidence := 0.3, is_supported := false }
        { path := "/tmp/a.xyz", name := "a.xyz", stem := "a", extension := ".xyz",
          size_bytes := 100, size_mb := 0.0, size_category := "small" } =
      { can_process := false, reason := some "Type de fichier non supporté" }) ∧
    ((generate_processing_info
        { method := "extension", detected_type := ".txt", mime_type := "text/plain",
          description := "Plain Text File", confidence := 0.7, is_supported := true }
        { path := "/tmp/a.txt", name := "a.txt", stem := "a", extension := ".txt",
          size_bytes := 100, size_mb := 0.0, size_category := "small" }).recommendedParser =
      some "built-in") := by
  constructor
  · exact (C8_processing_support _ _).1 (Or.inl rfl)
  · have h := (C8_processing_support
      { method := "extension", detected_type := ".txt", mime_type := "text/plain",
        description := "Plain Text File", confidence := 0.7, is_supported := true }
      { path := "/tmp/a.txt", name := "a.txt", stem := "a", extension := ".txt",
        size_bytes := 100, size_mb := 0.0, size_category := "small" }).2
      { extension := ".txt", mime_type := "text/plain", description := "Plain Text File",
        parser_module := "built-in", complexity := "low" } rfl (by decide)
    exact h.2

/-- C9: for a supported final type the reported complexity is the ordinal
maximum of the catalog intrinsic complexity and the size-derived complexity,
ties kept on the catalog value, with the size thresholds 5 and 20 MB. -/
theorem C9_overall_complexity (d : DetectionResult) (f : FileInfo)
    (doc_type : DocumentType)
    (h1 : d.is_supported = true) (h2 : get_document_type d.detected_type = some doc_type)
    (h3 : doc_type.complexity ∈ complexityValues) :
    (generate_processing_info d f).complexity =
      some (spec_ordinal_max doc_type.complexity (estimate_size_complexity f.size_mb)) ∧
    estimate_size_complexity f.size_mb =
      (if f.size_mb < 5 then "low" else if f.size_mb < 20 then "medium" else "high") := by
  refine ⟨?_, rfl⟩
  have hsup : is_supported d.detected_type = true := is_supported_of_get h2
  simp only [generate_processing_info]
  rw [h1, hsup]
  simp only [Bool.and_self, if_true, ite_true]
  rw [h2]
  simp only
  rw [max_complexity_eq_spec _ _ h3 (size_complexity_mem f.size_mb)]

/-- C9 witness: a 30 MB pdf combines intrinsic high with size-derived high. -/
theorem C9_witness :
    (generate_processing_info
        { method := "mime_content", detected_type := ".pdf", mime_type := "application/pdf",
          description := "PDF Document", confidence := 1, is_supported := true }
        { path := "/tmp/a.pdf", name := "a.pdf", stem := "a", extension := ".pdf",
          size_bytes := 31457280, size_mb := 30, size_category := "large" }).complexity =
      some (spec_ordinal_max "high" (estimate_size_complexity 30)) := by
  have h := (C9_overall_complexity
    { method := "mime_content", detected_type := ".pdf", mime_type := "application/pdf",
      description := "PDF Document", confidence := 1, is_supported := true }
    { path := "/tmp/a.pdf", name := "a.pdf", stem := "a", extension := ".pdf",
      size_bytes := 31457280, size_mb := 30, size_category := "large" }
    { extension := ".pdf", mime_type := "application/pdf", description := "PDF Document",
      parser_module := "pdfplumber", complexity := "high" }
    rfl (by decide) (by decide)).1
  exact h

/-- C10 witness: a pdf file corroborated by magic sniffing reaches the
coherent branch and confidence exactly 1. -/
theorem C10_witness :
    (resolve_detection_conflicts (detect_by_extension ".pdf")
        (detect_by_mime (SniffOutcome.magicOk "application/pdf"))).confidence = 1 := by
  refine C10_coherent_confidence_one _ _ ⟨".pdf", rfl⟩ ⟨_, rfl⟩ ?_
  have he : detect_by_extension ".pdf" =
      { method := "extension", detected_type := ".pdf", mime_type := "application/pdf",
        description := "PDF Document", confidence := 0.7, is_supported := true } := rfl
  have hm : detect_by_mime (SniffOutcome.magicOk "application/pdf") =
      { method := "mime_content", detected_type := ".pdf", mime_type := "application/pdf",
        description := "PDF Document", confidence := 0.9, is_supported := true } := rfl
  rw [he, hm]
  norm_num [resolve_detection_conflicts]
  rw [if_neg (by decide : ¬("application/pdf" = "error"))]
